import Mathlib

/-!
Shallow embedding of `src/streamlit.py`, a one-file dashboard that loads a
spreadsheet of company financials, computes period-over-period growth rates
for three metrics, aggregates them by sector, and filters the derived tables
for display.

Modelling choices:
* a spreadsheet cell is `Option ℚ`: `none` models pandas NaN, `some q` a
  numeric value (exact rationals stand in for floats; every arithmetic step
  of the source is a single subtraction/division/multiplication, so the
  rational model is exact on rational inputs);
* a row's metric-snapshot columns are a map `String → Option Cell`: the
  outer `none` models a column that is absent from the frame, where
  `row[col]` raises `KeyError` (caught by the source's `try`/`except`);
* `None` growth slots and NaN averages are both `none : Option ℚ`
  (pandas stores the `None` appended by the source as NaN as well);
* `np.mean []` evaluates to NaN, modelled as `none`;
* `groupby('Sector')` uses the pandas default `dropna=True` and
  `sort=True`: rows whose sector is NaN are excluded from the grouping and
  the group keys come out sorted ascending.
-/

namespace Financial

/-- A spreadsheet cell: `none` is pandas NaN, `some q` a numeric value. -/
abbrev Cell := Option ℚ

/-- A row of the first (financial) sheet before the merge: the
`Exchange:Ticker` column, the `Company Name` column, and the metric snapshot
columns as a map from column name to cell (`none` = column absent). -/
structure FinRow where
  ticker : String
  companyName : String
  cols : String → Option Cell

/-- A row of the merged frame produced by `load_and_preprocess_data`:
the financial columns plus the `Sector` column joined in from the second
sheet (`none` = NaN sector, i.e. the ticker had no match). -/
structure Row where
  ticker : String
  companyName : String
  sector : Option String
  cols : String → Option Cell

/-- Embedding of `load_and_preprocess_data` (src/streamlit.py:9-20).
The second sheet is a headerless list of (Ticker, Sector) pairs.  The
pandas left merge emits, for each left row in order, one output row per
matching right row, or a single row with NaN sector when no right row
matches. -/
def load_and_preprocess_data (financial : List FinRow)
    (sectorTab : List (String × String)) : List Row :=
  financial.flatMap (fun fr =>
    let ms := sectorTab.filter (fun p => p.1 = fr.ticker)
    if ms.isEmpty then [⟨fr.ticker, fr.companyName, none, fr.cols⟩]
    else ms.map (fun p => ⟨fr.ticker, fr.companyName, some p.2, fr.cols⟩))

/-- Lookup of a ticker's sector in the second sheet (first match). -/
def lookupSector (sectorTab : List (String × String)) (t : String) :
    Option String :=
  (sectorTab.find? (fun p => p.1 = t)).map Prod.snd

/-- The five `Total Revenue` snapshot columns (src/streamlit.py:25-26). -/
def totalRevenueCols : List String :=
  ["Total Revenue [LTM - 16]", "Total Revenue [LTM - 12]",
   "Total Revenue [LTM - 8]", "Total Revenue [LTM - 4]", "Total Revenue [LTM]"]

/-- The five `Net Income` snapshot columns (src/streamlit.py:27-28). -/
def netIncomeCols : List String :=
  ["Net Income [LTM - 16]", "Net Income [LTM - 12]",
   "Net Income [LTM - 8]", "Net Income [LTM - 4]", "Net Income [LTM]"]

/-- The five `EBITDA` snapshot columns (src/streamlit.py:29-30). -/
def ebitdaCols : List String :=
  ["EBITDA [LTM - 16]", "EBITDA [LTM - 12]",
   "EBITDA [LTM - 8]", "EBITDA [LTM - 4]", "EBITDA [LTM]"]

/-- The numeric value a row holds at a column: `some q` when the column is
present and the cell is not NaN, `none` otherwise. -/
def valueAt (row : Row) (c : String) : Option ℚ :=
  (row.cols c).join

/-- Embedding of one iteration of the slot loop (src/streamlit.py:45-56):
read the current and previous snapshot cells (a missing column raises, and
the `except` appends `None`), append `None` when either is NaN or the
previous value is zero, otherwise append `(cur - prev) / prev * 100`. -/
def slotGrowth (row : Row) (prevCol curCol : String) : Option ℚ :=
  match row.cols curCol, row.cols prevCol with
  | some (some c), some (some p) =>
      if p = 0 then none else some ((c - p) / p * 100)
  | _, _ => none

/-- Consecutive pairs of a list, in order: the source's
`for i in range(1, len(columns))` pairs `columns[i-1]` with `columns[i]`. -/
def consecPairs {α : Type} : List α → List (α × α)
  | a :: b :: rest => (a, b) :: consecPairs (b :: rest)
  | _ => []

/-- The list `growth_rates` built for one metric of one row
(src/streamlit.py:43-56). -/
def calcMetricGrowth (row : Row) (columns : List String) : List (Option ℚ) :=
  (consecPairs columns).map (fun pc => slotGrowth row pc.1 pc.2)

/-- Embedding of `np.mean` on a list of numbers: NaN (`none`) on the empty
list, the arithmetic mean otherwise. -/
def npMean (xs : List ℚ) : Option ℚ :=
  if xs.isEmpty then none else some (xs.sum / (xs.length : ℚ))

/-- The average growth of one metric (src/streamlit.py:59):
`np.mean([g for g in growth_rates if g is not None])`. -/
def avgGrowth (rates : List (Option ℚ)) : Option ℚ :=
  npMean (rates.filterMap id)

/-- One entry of `company_growth_data` (src/streamlit.py:36-62): the
identifying columns plus, per metric, the four growth-rate slots and their
average. -/
structure GrowthRecord where
  ticker : String
  companyName : String
  sector : Option String
  total_Revenue_Growth_Rates : List (Option ℚ)
  total_Revenue_Avg_Growth : Option ℚ
  net_Income_Growth_Rates : List (Option ℚ)
  net_Income_Avg_Growth : Option ℚ
  ebitda_Growth_Rates : List (Option ℚ)
  ebitda_Avg_Growth : Option ℚ
  deriving DecidableEq

/-- The growth record computed from one input row (the body of the
`for _, row in df.iterrows()` loop, src/streamlit.py:35-64). -/
def rowGrowth (row : Row) : GrowthRecord :=
  { ticker := row.ticker
    companyName := row.companyName
    sector := row.sector
    total_Revenue_Growth_Rates := calcMetricGrowth row totalRevenueCols
    total_Revenue_Avg_Growth := avgGrowth (calcMetricGrowth row totalRevenueCols)
    net_Income_Growth_Rates := calcMetricGrowth row netIncomeCols
    net_Income_Avg_Growth := avgGrowth (calcMetricGrowth row netIncomeCols)
    ebitda_Growth_Rates := calcMetricGrowth row ebitdaCols
    ebitda_Avg_Growth := avgGrowth (calcMetricGrowth row ebitdaCols) }

/-- Embedding of `calculate_growth_rates` (src/streamlit.py:23-66): one
growth record per input row, in order. -/
def calculate_growth_rates (df : List Row) : List GrowthRecord :=
  df.map rowGrowth

/-- Boolean ascending comparison on characters by code point. -/
def charLtB (a b : Char) : Bool := a.toNat < b.toNat

/-- Boolean lexicographic `≤` on character lists (the order Python and
pandas sort strings by). -/
def lexLeB : List Char → List Char → Bool
  | [], _ => true
  | _ :: _, [] => false
  | a :: as, b :: bs =>
      if charLtB a b then true
      else if charLtB b a then false
      else lexLeB as bs

/-- Boolean lexicographic `≤` on strings. -/
def strLeB (a b : String) : Bool := lexLeB a.data b.data

/-- Boolean `≤` on rationals. -/
def qLeB (a b : ℚ) : Bool := decide (a ≤ b)

/-- Insertion of an element into a list ahead of the first element it
compares `≤` to. -/
def insertLe {α : Type} (le : α → α → Bool) (a : α) : List α → List α
  | [] => [a]
  | b :: bs => if le a b then a :: b :: bs else b :: insertLe le a bs

/-- Insertion sort by a boolean comparison. -/
def sortLe {α : Type} (le : α → α → Bool) : List α → List α
  | [] => []
  | a :: as => insertLe le a (sortLe le as)

/-- Modelled from the spec: the standard median of an ascending-sorted list
of numbers — undefined on the empty list, the middle element for an odd
count, the mean of the two middle elements for an even count. -/
def specMedianSorted (s : List ℚ) : Option ℚ :=
  if s.length = 0 then none
  else if s.length % 2 = 1 then s[s.length / 2]?
  else match s[s.length / 2 - 1]?, s[s.length / 2]? with
       | some a, some b => some ((a + b) / 2)
       | _, _ => none

/-- Embedding of the pandas `median` aggregation over the non-NaN values of
a group (NaN values are dropped by the caller before this is applied):
sort ascending, then take the standard median. -/
def median (xs : List ℚ) : Option ℚ :=
  specMedianSorted (sortLe qLeB xs)

/-- One row of the frame produced by `calculate_sector_growth`: the sector
key and the median of each metric's average-growth column. -/
structure SectorGrowthRecord where
  sector : String
  total_Revenue_Avg_Growth : Option ℚ
  net_Income_Avg_Growth : Option ℚ
  ebitda_Avg_Growth : Option ℚ
  deriving DecidableEq

/-- The rows of the growth frame belonging to one sector group. -/
def sectorGroup (growth : List GrowthRecord) (s : String) : List GrowthRecord :=
  growth.filter (fun g => g.sector = some s)

/-- The distinct defined sector keys of the growth frame, ascending — the
group keys of `groupby('Sector')` with its defaults `dropna=True` (NaN
sectors form no group) and `sort=True`. -/
def sectorKeys (growth : List GrowthRecord) : List String :=
  sortLe strLeB (growth.filterMap (fun g => g.sector)).dedup

/-- Embedding of `calculate_sector_growth` (src/streamlit.py:69-75): group
the growth frame by sector (NaN keys dropped, keys sorted) and take each
metric column's median over the group, pandas `median` skipping NaN
entries. -/
def calculate_sector_growth (growth : List GrowthRecord) :
    List SectorGrowthRecord :=
  (sectorKeys growth).map (fun s =>
    { sector := s
      total_Revenue_Avg_Growth :=
        median ((sectorGroup growth s).filterMap
          (fun g => g.total_Revenue_Avg_Growth))
      net_Income_Avg_Growth :=
        median ((sectorGroup growth s).filterMap
          (fun g => g.net_Income_Avg_Growth))
      ebitda_Avg_Growth :=
        median ((sectorGroup growth s).filterMap
          (fun g => g.ebitda_Avg_Growth)) })

/-- Embedding of `growth_df[growth_df['Sector'].isin(selected_sectors)]`
(src/streamlit.py:109). -/
def filterGrowthBySector (growth : List GrowthRecord)
    (selected : List (Option String)) : List GrowthRecord :=
  growth.filter (fun g => decide (g.sector ∈ selected))

/-- Embedding of
`sector_growth_df[sector_growth_df['Sector'].isin(selected_sectors)]`
(src/streamlit.py:110). -/
def filterSectorGrowthBySector (st : List SectorGrowthRecord)
    (selected : List (Option String)) : List SectorGrowthRecord :=
  st.filter (fun r => decide (some r.sector ∈ selected))

/-- Modelled from the spec: the edge-case policy of §4.2 for one slot, as a
function of the two endpoint values — undefined when either endpoint is
missing/not-a-number or the prior value is exactly zero, otherwise
`(cur - prev) / prev * 100`. -/
def specSlot (prev cur : Option ℚ) : Option ℚ :=
  match cur, prev with
  | some c, some p => if p = 0 then none else some ((c - p) / p * 100)
  | _, _ => none

/-- Modelled from the spec: the average-growth policy of §4.2 — the
arithmetic mean of only the defined slots, undefined when no slot is
defined. -/
def specAvg (rates : List (Option ℚ)) : Option ℚ :=
  let defined := rates.filterMap id
  if defined = [] then none
  else some (defined.sum / (defined.length : ℚ))

/-! ### Helper lemmas -/

/-- One slot of the loop equals the spec's edge-case policy applied to the
two endpoint values. -/
theorem slotGrowth_eq_specSlot (row : Row) (pc cc : String) :
    slotGrowth row pc cc = specSlot (valueAt row pc) (valueAt row cc) := by
  unfold slotGrowth specSlot valueAt
  rcases row.cols cc with _ | (_ | c) <;> rcases row.cols pc with _ | (_ | p) <;>
    simp [Option.join]

/-- A five-column metric yields exactly the four consecutive-pair slots. -/
theorem calcMetricGrowth_five (row : Row) (a b c d e : String) :
    calcMetricGrowth row [a, b, c, d, e] =
      [slotGrowth row a b, slotGrowth row b c, slotGrowth row c d,
       slotGrowth row d e] := rfl

/-- Indexing a five-column metric's slot list: when positions `j` and
`j + 1` of the column list hold `pc` and `cc`, slot `j` is
`slotGrowth row pc cc`. -/
theorem calcMetricGrowth_get (row : Row) (a b c d e pc cc : String) (j : ℕ)
    (h1 : [a, b, c, d, e][j]? = some pc)
    (h2 : [a, b, c, d, e][j + 1]? = some cc) :
    (calcMetricGrowth row [a, b, c, d, e])[j]? =
      some (slotGrowth row pc cc) := by
  match j with
  | 0 => simp_all [calcMetricGrowth, consecPairs]
  | 1 => simp_all [calcMetricGrowth, consecPairs]
  | 2 => simp_all [calcMetricGrowth, consecPairs]
  | 3 => simp_all [calcMetricGrowth, consecPairs]
  | n + 4 => simp [List.getElem?_cons_succ] at h2

/-- Entry `i` of the growth frame is the growth record of row `i`. -/
theorem calculate_growth_rates_get (df : List Row) (i : ℕ) :
    (calculate_growth_rates df)[i]? = df[i]?.map rowGrowth := by
  simp [calculate_growth_rates]

/-- The code's average and the spec's average policy agree. -/
theorem avgGrowth_eq_specAvg (rates : List (Option ℚ)) :
    avgGrowth rates = specAvg rates := by
  simp [avgGrowth, npMean, specAvg, List.isEmpty_iff]

/-- Core lemma shared by the slot-level claims: for any row of the input
frame, any of the three metrics, and any consecutive column pair, the slot
list has four entries and slot `j` equals the spec's edge-case policy
applied to the two endpoint values. -/
theorem record_slot_spec (df : List Row) (i j : ℕ) (row : Row)
    (r : GrowthRecord) (mcols : List String) (rates : List (Option ℚ))
    (pc cc : String)
    (hrow : df[i]? = some row)
    (hrec : (calculate_growth_rates df)[i]? = some r)
    (hm : (mcols, rates) ∈
      [(totalRevenueCols, r.total_Revenue_Growth_Rates),
       (netIncomeCols, r.net_Income_Growth_Rates),
       (ebitdaCols, r.ebitda_Growth_Rates)])
    (hpc : mcols[j]? = some pc) (hcc : mcols[j + 1]? = some cc) :
    rates.length = 4 ∧
    rates[j]? = some (specSlot (valueAt row pc) (valueAt row cc)) := by
  rw [calculate_growth_rates_get, hrow] at hrec
  obtain rfl : rowGrowth row = r := by simpa using hrec
  simp only [rowGrowth] at hm
  simp only [List.mem_cons, List.not_mem_nil, or_false, Prod.mk.injEq] at hm
  rcases hm with ⟨rfl, rfl⟩ | ⟨rfl, rfl⟩ | ⟨rfl, rfl⟩
  · simp only [totalRevenueCols] at hpc hcc
    exact ⟨rfl, by
      rw [← slotGrowth_eq_specSlot row pc cc]
      exact calcMetricGrowth_get row _ _ _ _ _ pc cc j hpc hcc⟩
  · simp only [netIncomeCols] at hpc hcc
    exact ⟨rfl, by
      rw [← slotGrowth_eq_specSlot row pc cc]
      exact calcMetricGrowth_get row _ _ _ _ _ pc cc j hpc hcc⟩
  · simp only [ebitdaCols] at hpc hcc
    exact ⟨rfl, by
      rw [← slotGrowth_eq_specSlot row pc cc]
      exact calcMetricGrowth_get row _ _ _ _ _ pc cc j hpc hcc⟩

/-! ### C1 -/

/-- C1: for every input row and every metric, and for each of the four
consecutive snapshot pairs, the growth-rate slot is `none` exactly when
either endpoint value is missing/not-a-number or the prior value is zero
(so the division is never performed there), and otherwise equals
`(current - previous) / previous * 100` — i.e. every slot equals the
spec's edge-case policy `specSlot` applied to the two endpoint values. -/
theorem growth_slot_edge_policy (df : List Row) (i j : ℕ) (row : Row)
    (r : GrowthRecord) (mcols : List String) (rates : List (Option ℚ))
    (pc cc : String)
    (hrow : df[i]? = some row)
    (hrec : (calculate_growth_rates df)[i]? = some r)
    (hm : (mcols, rates) ∈
      [(totalRevenueCols, r.total_Revenue_Growth_Rates),
       (netIncomeCols, r.net_Income_Growth_Rates),
       (ebitdaCols, r.ebitda_Growth_Rates)])
    (hpc : mcols[j]? = some pc) (hcc : mcols[j + 1]? = some cc) :
    rates.length = 4 ∧
    rates[j]? = some (specSlot (valueAt row pc) (valueAt row cc)) :=
  record_slot_spec df i j row r mcols rates pc cc hrow hrec hm hpc hcc

/-- The row used to witness C1: revenue snapshots 100 and 110 at the two
oldest columns, everything else absent. -/
def rowC1 : Row :=
  ⟨"A", "A Co", some "Tech", fun c =>
    if c = "Total Revenue [LTM - 16]" then some (some 100)
    else if c = "Total Revenue [LTM - 12]" then some (some 110)
    else none⟩

/-- Witness for C1 at `df = [rowC1]`, row 0, revenue metric, slot 0. -/
theorem growth_slot_edge_policy_witness :
    ((rowGrowth rowC1).total_Revenue_Growth_Rates).length = 4 ∧
    ((rowGrowth rowC1).total_Revenue_Growth_Rates)[0]? =
      some (specSlot (valueAt rowC1 "Total Revenue [LTM - 16]")
        (valueAt rowC1 "Total Revenue [LTM - 12]")) :=
  growth_slot_edge_policy [rowC1] 0 0 rowC1 (rowGrowth rowC1)
    totalRevenueCols (rowGrowth rowC1).total_Revenue_Growth_Rates
    "Total Revenue [LTM - 16]" "Total Revenue [LTM - 12]"
    rfl rfl (by simp) (by simp [totalRevenueCols]) (by simp [totalRevenueCols])

/-! ### C2 -/

/-- C2: for every input row and every metric, the metric's average growth
equals the arithmetic mean of only the defined (non-`none`) growth-rate
slots, and is undefined (not zero) when no slot is defined — i.e. it equals
the spec's average policy `specAvg` applied to the slot list. -/
theorem avg_growth_policy (df : List Row) (i : ℕ) (r : GrowthRecord)
    (rates : List (Option ℚ)) (avg : Option ℚ)
    (hrec : (calculate_growth_rates df)[i]? = some r)
    (hm : (rates, avg) ∈
      [(r.total_Revenue_Growth_Rates, r.total_Revenue_Avg_Growth),
       (r.net_Income_Growth_Rates, r.net_Income_Avg_Growth),
       (r.ebitda_Growth_Rates, r.ebitda_Avg_Growth)]) :
    avg = specAvg rates := by
  rw [calculate_growth_rates_get] at hrec
  rcases hdf : df[i]? with _ | row
  · rw [hdf] at hrec; simp at hrec
  · rw [hdf] at hrec
    obtain rfl : rowGrowth row = r := by simpa using hrec
    simp only [rowGrowth] at hm
    simp only [List.mem_cons, List.not_mem_nil, or_false, Prod.mk.injEq] at hm
    rcases hm with ⟨rfl, rfl⟩ | ⟨rfl, rfl⟩ | ⟨rfl, rfl⟩ <;>
      exact avgGrowth_eq_specAvg _

/-- The row used to witness C2: no snapshot column present at all, so all
slots and the average are undefined. -/
def rowC2 : Row := ⟨"A", "A Co", some "Tech", fun _ => none⟩

/-- Witness for C2 at `df = [rowC2]`, row 0, revenue metric: the average of
a row with no defined slot is `specAvg` of its slots, i.e. undefined. -/
theorem avg_growth_policy_witness :
    (rowGrowth rowC2).total_Revenue_Avg_Growth =
      specAvg (rowGrowth rowC2).total_Revenue_Growth_Rates :=
  avg_growth_policy [rowC2] 0 (rowGrowth rowC2)
    (rowGrowth rowC2).total_Revenue_Growth_Rates
    (rowGrowth rowC2).total_Revenue_Avg_Growth rfl (by simp)

/-! ### C9 -/

/-- C9: for every input row and metric pair where the prior value is a
defined nonzero number and the current value is exactly zero, the growth
slot is the defined number `-100`, not `none`: a zero current value is not
guarded, only a zero prior value is. -/
theorem zero_current_value_slot (df : List Row) (i j : ℕ) (row : Row)
    (r : GrowthRecord) (mcols : List String) (rates : List (Option ℚ))
    (pc cc : String) (p : ℚ)
    (hrow : df[i]? = some row)
    (hrec : (calculate_growth_rates df)[i]? = some r)
    (hm : (mcols, rates) ∈
      [(totalRevenueCols, r.total_Revenue_Growth_Rates),
       (netIncomeCols, r.net_Income_Growth_Rates),
       (ebitdaCols, r.ebitda_Growth_Rates)])
    (hpc : mcols[j]? = some pc) (hcc : mcols[j + 1]? = some cc)
    (hcur : valueAt row cc = some 0)
    (hprev : valueAt row pc = some p) (hp : p ≠ 0) :
    rates[j]? = some (some (-100)) := by
  have h := record_slot_spec df i j row r mcols rates pc cc
    hrow hrec hm hpc hcc
  rw [h.2, hcur, hprev]
  simp only [specSlot, if_neg hp, Option.some.injEq]
  field_simp

/-- The row used to witness C9: revenue drops from 50 to 0 across the two
oldest snapshots. -/
def rowC9 : Row :=
  ⟨"A", "A Co", some "Tech", fun c =>
    if c = "Total Revenue [LTM - 16]" then some (some 50)
    else if c = "Total Revenue [LTM - 12]" then some (some 0)
    else none⟩

/-- Witness for C9 at `df = [rowC9]`, row 0, revenue metric, slot 0. -/
theorem zero_current_value_slot_witness :
    ((rowGrowth rowC9).total_Revenue_Growth_Rates)[0]? =
      some (some ((-100 : ℚ))) :=
  zero_current_value_slot [rowC9] 0 0 rowC9 (rowGrowth rowC9)
    totalRevenueCols (rowGrowth rowC9).total_Revenue_Growth_Rates
    "Total Revenue [LTM - 16]" "Total Revenue [LTM - 12]" 50
    rfl rfl (by simp) (by simp [totalRevenueCols]) (by simp [totalRevenueCols])
    (by simp [valueAt, rowC9]) (by simp [valueAt, rowC9]) (by norm_num)

/-! ### C7 -/

/-- The row of the spec's scenario for company B: revenue snapshots
`[0, 50, 55, 60, 66]`, oldest to newest. -/
def rowC7 : Row :=
  ⟨"B", "B Co", some "Tech", fun c =>
    if c = "Total Revenue [LTM - 16]" then some (some 0)
    else if c = "Total Revenue [LTM - 12]" then some (some 50)
    else if c = "Total Revenue [LTM - 8]" then some (some 55)
    else if c = "Total Revenue [LTM - 4]" then some (some 60)
    else if c = "Total Revenue [LTM]" then some (some 66)
    else none⟩

/-- C7: on revenue snapshots `[0, 50, 55, 60, 66]` the calculator produces
revenue growth slots `[undefined, 10, 100/11, 10]` (the first undefined
because the prior value is zero; `100/11 = 9.0909...`) and an average
revenue growth of `320/33 ≈ 9.70`, within `0.01` of `9.70`. -/
theorem scenario_company_B :
    (calculate_growth_rates [rowC7]).map
        (fun r => r.total_Revenue_Growth_Rates) =
      [[none, some 10, some (100 / 11), some 10]] ∧
    (calculate_growth_rates [rowC7]).map
        (fun r => r.total_Revenue_Avg_Growth) =
      [some (320 / 33)] ∧
    |(320 : ℚ) / 33 - 97 / 10| < 1 / 100 := by
  have v0 : valueAt rowC7 "Total Revenue [LTM - 16]" = some 0 := rfl
  have v1 : valueAt rowC7 "Total Revenue [LTM - 12]" = some 50 := rfl
  have v2 : valueAt rowC7 "Total Revenue [LTM - 8]" = some 55 := rfl
  have v3 : valueAt rowC7 "Total Revenue [LTM - 4]" = some 60 := rfl
  have v4 : valueAt rowC7 "Total Revenue [LTM]" = some 66 := rfl
  have s0 : slotGrowth rowC7 "Total Revenue [LTM - 16]"
      "Total Revenue [LTM - 12]" = none := by
    rw [slotGrowth_eq_specSlot, v0, v1]; simp [specSlot]
  have s1 : slotGrowth rowC7 "Total Revenue [LTM - 12]"
      "Total Revenue [LTM - 8]" = some 10 := by
    rw [slotGrowth_eq_specSlot, v1, v2]; norm_num [specSlot]
  have s2 : slotGrowth rowC7 "Total Revenue [LTM - 8]"
      "Total Revenue [LTM - 4]" = some (100 / 11) := by
    rw [slotGrowth_eq_specSlot, v2, v3]; norm_num [specSlot]
  have s3 : slotGrowth rowC7 "Total Revenue [LTM - 4]"
      "Total Revenue [LTM]" = some 10 := by
    rw [slotGrowth_eq_specSlot, v3, v4]; norm_num [specSlot]
  have hrates : calcMetricGrowth rowC7 totalRevenueCols =
      [none, some 10, some (100 / 11), some 10] := by
    rw [show totalRevenueCols =
      ["Total Revenue [LTM - 16]", "Total Revenue [LTM - 12]",
       "Total Revenue [LTM - 8]", "Total Revenue [LTM - 4]",
       "Total Revenue [LTM]"] from rfl, calcMetricGrowth_five, s0, s1, s2, s3]
  have havg : avgGrowth [none, some 10, some (100 / 11), some 10] =
      some (320 / 33) := by
    have hfm : List.filterMap id
        [none, some (10 : ℚ), some (100 / 11), some 10] =
        [10, 100 / 11, 10] := by simp
    rw [avgGrowth, hfm]
    norm_num [npMean, List.sum_cons, List.sum_nil]
  refine ⟨?_, ?_, by rw [abs_sub_lt_iff]; constructor <;> norm_num⟩ <;>
    simp only [calculate_growth_rates, List.map_cons, List.map_nil,
      rowGrowth, hrates, havg]

/-! ### C6 -/

/-- C6: a computational fault while extracting one slot's endpoint values —
modelled as one of the slot's snapshot columns being absent from the row,
where indexing raises and the `except` catches — makes that single slot
undefined, while every slot whose own two columns are unaffected is
computed normally (its value depends only on its own two columns, as the
quantification over `row₂` shows), every row still yields a record, and
every other row's record is computed from that row alone. -/
theorem slot_fault_isolation (df : List Row) (i : ℕ) (row : Row) (c : String)
    (r : GrowthRecord)
    (j : ℕ) (mcols : List String) (rates : List (Option ℚ)) (pc cc : String)
    (j' : ℕ) (mcols' : List String) (rates' : List (Option ℚ))
    (pc' cc' : String) (row₂ : Row) (k : ℕ) (row' : Row)
    (hrow : df[i]? = some row) (hmiss : row.cols c = none)
    (hrec : (calculate_growth_rates df)[i]? = some r)
    (hm : (mcols, rates) ∈
      [(totalRevenueCols, r.total_Revenue_Growth_Rates),
       (netIncomeCols, r.net_Income_Growth_Rates),
       (ebitdaCols, r.ebitda_Growth_Rates)])
    (hpc : mcols[j]? = some pc) (hcc : mcols[j + 1]? = some cc)
    (hfault : pc = c ∨ cc = c)
    (hm' : (mcols', rates') ∈
      [(totalRevenueCols, r.total_Revenue_Growth_Rates),
       (netIncomeCols, r.net_Income_Growth_Rates),
       (ebitdaCols, r.ebitda_Growth_Rates)])
    (hpc' : mcols'[j']? = some pc') (hcc' : mcols'[j' + 1]? = some cc')
    (hagree1 : row₂.cols pc' = row.cols pc')
    (hagree2 : row₂.cols cc' = row.cols cc')
    (hk : df[k]? = some row') :
    (calculate_growth_rates df).length = df.length ∧
    rates[j]? = some none ∧
    rates'[j']? = some (slotGrowth row₂ pc' cc') ∧
    (calculate_growth_rates df)[k]? = some (rowGrowth row') := by
  refine ⟨by simp [calculate_growth_rates], ?_, ?_, ?_⟩
  · have h := record_slot_spec df i j row r mcols rates pc cc
      hrow hrec hm hpc hcc
    rw [h.2]
    rcases hfault with rfl | rfl
    · have hv : valueAt row pc = none := by unfold valueAt; rw [hmiss]; rfl
      rw [hv]
      rcases valueAt row cc with _ | q <;> simp [specSlot]
    · have hv : valueAt row cc = none := by unfold valueAt; rw [hmiss]; rfl
      rw [hv]
      rcases valueAt row pc with _ | q <;> simp [specSlot]
  · have h := record_slot_spec df i j' row r mcols' rates' pc' cc'
      hrow hrec hm' hpc' hcc'
    rw [h.2, ← slotGrowth_eq_specSlot row pc' cc']
    unfold slotGrowth
    rw [hagree1, hagree2]
  · rw [calculate_growth_rates_get, hk, Option.map_some']

/-- The row used to witness C6: the `EBITDA [LTM]` column is absent (as is
every other column except the two oldest EBITDA snapshots). -/
def rowC6 : Row :=
  ⟨"A", "A Co", some "Tech", fun c =>
    if c = "EBITDA [LTM - 16]" then some (some 10)
    else if c = "EBITDA [LTM - 12]" then some (some 20)
    else none⟩

/-- Witness for C6 at `df = [rowC6]` with faulty column `EBITDA [LTM]`:
slot 3 of EBITDA is undefined, slot 0 of EBITDA is computed from its own
two columns, and the row still yields its record. -/
theorem slot_fault_isolation_witness :
    (calculate_growth_rates [rowC6]).length = ([rowC6] : List Row).length ∧
    ((rowGrowth rowC6).ebitda_Growth_Rates)[3]? = some none ∧
    ((rowGrowth rowC6).ebitda_Growth_Rates)[0]? =
      some (slotGrowth rowC6 "EBITDA [LTM - 16]" "EBITDA [LTM - 12]") ∧
    (calculate_growth_rates [rowC6])[0]? = some (rowGrowth rowC6) :=
  slot_fault_isolation [rowC6] 0 rowC6 "EBITDA [LTM]" (rowGrowth rowC6)
    3 ebitdaCols (rowGrowth rowC6).ebitda_Growth_Rates
    "EBITDA [LTM - 4]" "EBITDA [LTM]"
    0 ebitdaCols (rowGrowth rowC6).ebitda_Growth_Rates
    "EBITDA [LTM - 16]" "EBITDA [LTM - 12]" rowC6 0 rowC6
    rfl (by simp [rowC6]) rfl (by simp) (by simp [ebitdaCols])
    (by simp [ebitdaCols]) (Or.inr rfl) (by simp) (by simp [ebitdaCols])
    (by simp [ebitdaCols]) rfl rfl rfl

/-! ### C10 -/

/-- C10: the growth calculator and the sector aggregator are deterministic
pure functions of their input tables — equal inputs give equal outputs, and
nothing else (randomness, time, external state) influences the result. -/
theorem pipeline_deterministic (df₁ df₂ : List Row)
    (g₁ g₂ : List GrowthRecord) (hdf : df₁ = df₂) (hg : g₁ = g₂) :
    calculate_growth_rates df₁ = calculate_growth_rates df₂ ∧
    calculate_sector_growth g₁ = calculate_sector_growth g₂ := by
  subst hdf; subst hg; exact ⟨rfl, rfl⟩

/-- Witness for C10 at the empty tables. -/
theorem pipeline_deterministic_witness :
    calculate_growth_rates [] = calculate_growth_rates [] ∧
    calculate_sector_growth [] = calculate_sector_growth [] :=
  pipeline_deterministic [] [] [] [] rfl rfl

/-! ### Sorting lemmas -/

/-- Inserting with `insertLe` is a permutation of consing. -/
theorem perm_insertLe {α : Type} (le : α → α → Bool) (a : α) (l : List α) :
    (insertLe le a l).Perm (a :: l) := by
  induction l with
  | nil => exact List.Perm.refl _
  | cons b bs ih =>
      simp only [insertLe]
      split
      · exact List.Perm.refl _
      · exact (ih.cons b).trans (List.Perm.swap a b bs)

/-- Insertion sort permutes its input. -/
theorem perm_sortLe {α : Type} (le : α → α → Bool) (l : List α) :
    (sortLe le l).Perm l := by
  induction l with
  | nil => exact List.Perm.refl _
  | cons a as ih => exact (perm_insertLe le a (sortLe le as)).trans (ih.cons a)

/-- Inserting into an ascending list with `qLeB` keeps it ascending. -/
theorem sorted_insertLe (a : ℚ) (l : List ℚ) (h : l.Sorted (· ≤ ·)) :
    (insertLe qLeB a l).Sorted (· ≤ ·) := by
  induction l with
  | nil => simp [insertLe]
  | cons b bs ih =>
      obtain ⟨hb, hbs⟩ := List.sorted_cons.mp h
      simp only [insertLe]
      split
      · rename_i hab
        have hab' : a ≤ b := by simpa [qLeB] using hab
        refine List.sorted_cons.mpr ⟨fun x hx => ?_, h⟩
        rcases List.mem_cons.mp hx with rfl | hx
        · exact hab'
        · exact hab'.trans (hb x hx)
      · rename_i hab
        have hba : b ≤ a := le_of_not_le (by simpa [qLeB] using hab)
        refine List.sorted_cons.mpr ⟨fun x hx => ?_, ih hbs⟩
        rcases List.mem_cons.mp ((perm_insertLe qLeB a bs).mem_iff.mp hx) with
          rfl | hx
        · exact hba
        · exact hb x hx

/-- Insertion sort with `qLeB` sorts ascending. -/
theorem sorted_sortLe (l : List ℚ) : (sortLe qLeB l).Sorted (· ≤ ·) := by
  induction l with
  | nil => simp [sortLe]
  | cons a as ih => exact sorted_insertLe a _ ih

/-- The sector column of the aggregated frame is exactly the key list of
the grouping. -/
theorem calculate_sector_growth_map_sector (growth : List GrowthRecord) :
    (calculate_sector_growth growth).map (fun r => r.sector) =
      sectorKeys growth := by
  rw [calculate_sector_growth, List.map_map]
  show List.map (fun s => s) (sectorKeys growth) = sectorKeys growth
  exact List.map_id' (sectorKeys growth)

/-! ### C3 -/

/-- The row used against C3: its sector is undefined (NaN). -/
def rowC3 : Row := ⟨"A", "A Co", none, fun _ => none⟩

/-- Counterexample to C3 as stated: a growth table holding exactly one
record, whose sector is undefined, aggregates to an empty sector table —
the undefined-sector record is discarded, it does not form its own group. -/
theorem sector_nan_group_dropped :
    (calculate_growth_rates [rowC3]).length = 1 ∧
    (calculate_growth_rates [rowC3]).map (fun r => r.sector) = [none] ∧
    calculate_sector_growth (calculate_growth_rates [rowC3]) = [] :=
  ⟨rfl, rfl, rfl⟩

/-- C3 (amended): the sector aggregator produces exactly one output record
per distinct **defined** sector value present in its input; records whose
sector is undefined are dropped from the aggregation (pandas `groupby`
default `dropna=True`), so no group exists for them. -/
theorem sector_groups_are_defined_sectors (growth : List GrowthRecord)
    (s : String) :
    ((calculate_sector_growth growth).map (fun r => r.sector)).Nodup ∧
    decide (s ∈ (calculate_sector_growth growth).map (fun r => r.sector)) =
      decide (s ∈ growth.filterMap (fun g => g.sector)) := by
  rw [calculate_sector_growth_map_sector]
  constructor
  · exact ((perm_sortLe strLeB _).nodup_iff).mpr (List.nodup_dedup _)
  · exact decide_eq_decide.mpr
      ((perm_sortLe strLeB _).mem_iff.trans (List.mem_dedup))

/-! ### C4 -/

/-- C4: every record of the sector table carries, per metric, the median of
the defined per-company average-growth values of its sector's group
(undefined averages are ignored; a group with no defined average yields an
undefined median, since the median of the empty list is `none`), and
`median` is the standard median: it agrees with `specMedianSorted` on any
ascending rearrangement of its input. -/
theorem sector_median_is_standard_median (growth : List GrowthRecord)
    (rec : SectorGrowthRecord) (h : rec ∈ calculate_sector_growth growth)
    (xs s : List ℚ) (hperm : s.Perm xs) (hsort : s.Sorted (· ≤ ·)) :
    rec.total_Revenue_Avg_Growth =
      median ((sectorGroup growth rec.sector).filterMap
        (fun g => g.total_Revenue_Avg_Growth)) ∧
    rec.net_Income_Avg_Growth =
      median ((sectorGroup growth rec.sector).filterMap
        (fun g => g.net_Income_Avg_Growth)) ∧
    rec.ebitda_Avg_Growth =
      median ((sectorGroup growth rec.sector).filterMap
        (fun g => g.ebitda_Avg_Growth)) ∧
    median xs = specMedianSorted s := by
  obtain ⟨sct, hsct, rfl⟩ := List.mem_map.mp h
  refine ⟨rfl, rfl, rfl, ?_⟩
  have h1 : (sortLe qLeB xs).Perm s := (perm_sortLe qLeB xs).trans hperm.symm
  have h2 : sortLe qLeB xs = s :=
    List.eq_of_perm_of_sorted h1 (sorted_sortLe xs) hsort
  rw [median, h2]

/-- The one-record growth table used to witness C4: sector `Tech`, no
defined average for any metric. -/
def growthC4 : List GrowthRecord :=
  [⟨"A", "A Co", some "Tech", [], none, [], none, [], none⟩]

/-- The sector record the aggregator produces for `growthC4`. -/
def recC4 : SectorGrowthRecord := ⟨"Tech", none, none, none⟩

/-- Witness for C4 at `growthC4` and the empty value list. -/
theorem sector_median_is_standard_median_witness :
    recC4.total_Revenue_Avg_Growth =
      median ((sectorGroup growthC4 recC4.sector).filterMap
        (fun g => g.total_Revenue_Avg_Growth)) ∧
    recC4.net_Income_Avg_Growth =
      median ((sectorGroup growthC4 recC4.sector).filterMap
        (fun g => g.net_Income_Avg_Growth)) ∧
    recC4.ebitda_Avg_Growth =
      median ((sectorGroup growthC4 recC4.sector).filterMap
        (fun g => g.ebitda_Avg_Growth)) ∧
    median [] = specMedianSorted [] :=
  sector_median_is_standard_median growthC4 recC4 (by decide)
    [] [] (List.Perm.refl []) List.sorted_nil

/-! ### C5 -/

/-- With pairwise-distinct keys, filtering a pair list on one key yields
the empty list or the single entry `find?` returns. -/
theorem filter_key_of_nodup (tab : List (String × String)) (t : String)
    (h : (tab.map Prod.fst).Nodup) :
    tab.filter (fun p => p.1 = t) =
      (tab.find? (fun p => p.1 = t)).elim [] (fun p => [p]) := by
  induction tab with
  | nil => rfl
  | cons q qs ih =>
      rw [List.map_cons] at h
      obtain ⟨hq, hqs⟩ := List.nodup_cons.mp h
      by_cases hqt : q.1 = t
      · have hnil : qs.filter (fun p => decide (p.1 = t)) = [] := by
          rw [List.filter_eq_nil_iff]
          intro p hp
          simp only [decide_eq_true_eq]
          intro hpt
          have hmem : q.1 ∈ qs.map Prod.fst := by
            rw [hqt, ← hpt]; exact List.mem_map_of_mem Prod.fst hp
          exact hq hmem
        simp [List.filter_cons, List.find?_cons, hqt, hnil]
      · simp [List.filter_cons, List.find?_cons, hqt, ih hqs]

/-- With pairwise-distinct keys in the secondary sheet, the left merge is a
plain per-row map: each primary row gains its looked-up sector. -/
theorem load_map_of_nodup (financial : List FinRow)
    (tab : List (String × String)) (hnd : (tab.map Prod.fst).Nodup) :
    load_and_preprocess_data financial tab =
      financial.map (fun fr =>
        ⟨fr.ticker, fr.companyName, lookupSector tab fr.ticker, fr.cols⟩) := by
  induction financial with
  | nil => rfl
  | cons fr rest ih =>
      rw [load_and_preprocess_data, List.flatMap_cons, List.map_cons,
        ← load_and_preprocess_data, ih]
      rw [filter_key_of_nodup tab fr.ticker hnd, lookupSector]
      rcases hfind : tab.find? (fun p => p.1 = fr.ticker) with _ | p <;>
        simp [hfind, Option.elim]

/-- The secondary sheet used against C5: the ticker `A` appears twice. -/
def tabC5dup : List (String × String) := [("A", "X"), ("A", "Y")]

/-- The primary row used for C5. -/
def finC5 : FinRow := ⟨"A", "A Co", fun _ => none⟩

/-- Counterexample to C5 as stated: with a duplicated ticker in the
secondary tab, the left join emits the single primary row twice — the join
does not preserve every primary row exactly once for *every* pair of input
tabs. -/
theorem merge_duplicate_ticker_counterexample :
    ([finC5] : List FinRow).length = 1 ∧
    (load_and_preprocess_data [finC5] tabC5dup).length = 2 ∧
    (load_and_preprocess_data [finC5] tabC5dup).map (fun r => r.sector) =
      [some "X", some "Y"] :=
  ⟨rfl, rfl, rfl⟩

/-- C5 (amended): provided each ticker appears at most once in the
secondary tab (the spec's "sector lookup is a mapping"), the left join on
ticker identity preserves every primary row exactly once — none dropped,
none duplicated — and each row gains exactly one sector value, which is
undefined exactly when the row's ticker is absent from the secondary
tab. -/
theorem merge_left_preserves_rows (financial : List FinRow)
    (tab : List (String × String)) (i : ℕ) (fr : FinRow)
    (hnd : (tab.map Prod.fst).Nodup) (hfr : financial[i]? = some fr) :
    (load_and_preprocess_data financial tab).length = financial.length ∧
    (load_and_preprocess_data financial tab)[i]? =
      some ⟨fr.ticker, fr.companyName, lookupSector tab fr.ticker, fr.cols⟩ ∧
    (lookupSector tab fr.ticker = none ↔
      decide (fr.ticker ∈ tab.map Prod.fst) = false) := by
  rw [load_map_of_nodup financial tab hnd]
  refine ⟨List.length_map .., ?_, ?_⟩
  · rw [List.getElem?_map, hfr, Option.map_some']
  · rw [lookupSector]
    simp only [Option.map_eq_none', List.find?_eq_none, decide_eq_true_eq,
      decide_eq_false_iff_not, List.mem_map]
    constructor
    · rintro hnone ⟨p, hp, hpt⟩
      exact hnone p hp hpt
    · intro hnm p hp hpt
      exact hnm ⟨p, hp, hpt⟩

/-- The secondary sheet used to witness C5: one entry, ticker `B` only. -/
def tabC5w : List (String × String) := [("B", "Y")]

/-- Witness for C5 (amended) at one primary row whose ticker is absent
from the secondary tab. -/
theorem merge_left_preserves_rows_witness :
    (load_and_preprocess_data [finC5] tabC5w).length =
      ([finC5] : List FinRow).length ∧
    (load_and_preprocess_data [finC5] tabC5w)[0]? =
      some ⟨finC5.ticker, finC5.companyName, lookupSector tabC5w finC5.ticker,
        finC5.cols⟩ ∧
    (lookupSector tabC5w finC5.ticker = none ↔
      decide (finC5.ticker ∈ tabC5w.map Prod.fst) = false) :=
  merge_left_preserves_rows [finC5] tabC5w 0 finC5 (by simp [tabC5w]) rfl

/-! ### C8 -/

/-- C8: filtering by a sector subset is a pure row-subset operation on
both derived tables: the filtered tables are sublists of the originals,
every surviving row is (unchanged) a row of the original whose sector is a
selected one, and every original row with a selected sector survives.  The
underlying tables are values the filter never mutates. -/
theorem filter_is_pure_row_subset (gt : List GrowthRecord)
    (st : List SectorGrowthRecord) (sel : List (Option String))
    (g g₂ : GrowthRecord) (r : SectorGrowthRecord)
    (hg : g ∈ filterGrowthBySector gt sel)
    (hr : r ∈ filterSectorGrowthBySector st sel)
    (hg₂ : g₂ ∈ gt) (hsel : g₂.sector ∈ sel) :
    (filterGrowthBySector gt sel).Sublist gt ∧
    (filterSectorGrowthBySector st sel).Sublist st ∧
    g ∈ gt ∧ g.sector ∈ sel ∧
    r ∈ st ∧ some r.sector ∈ sel ∧
    g₂ ∈ filterGrowthBySector gt sel := by
  refine ⟨List.filter_sublist _, List.filter_sublist _, ?_, ?_, ?_, ?_, ?_⟩
  · exact (List.mem_filter.mp hg).1
  · simpa using (List.mem_filter.mp hg).2
  · exact (List.mem_filter.mp hr).1
  · simpa using (List.mem_filter.mp hr).2
  · exact List.mem_filter.mpr ⟨hg₂, by simpa using hsel⟩

/-- The growth record used to witness C8. -/
def gC8 : GrowthRecord := ⟨"A", "A Co", some "T", [], none, [], none, [], none⟩

/-- The sector record used to witness C8. -/
def rC8 : SectorGrowthRecord := ⟨"T", none, none, none⟩

/-- The selected sectors used to witness C8. -/
def selC8 : List (Option String) := [some "T"]

/-- Witness for C8 at one-row tables and the selection `[T]`. -/
theorem filter_is_pure_row_subset_witness :
    (filterGrowthBySector [gC8] selC8).Sublist [gC8] ∧
    (filterSectorGrowthBySector [rC8] selC8).Sublist [rC8] ∧
    gC8 ∈ ([gC8] : List GrowthRecord) ∧ gC8.sector ∈ selC8 ∧
    rC8 ∈ ([rC8] : List SectorGrowthRecord) ∧ some rC8.sector ∈ selC8 ∧
    gC8 ∈ filterGrowthBySector [gC8] selC8 :=
  filter_is_pure_row_subset [gC8] [rC8] selC8 gC8 gC8 rC8
    (by decide) (by decide) (by decide) (by decide)

end Financial
